import Mathlib

/-!
Shallow embedding of `app.py`: a Flask backend with two POST endpoints,
`/validate_startup` and `/generate_faq`.  Each handler checks the
`NVIDIA_API_KEY` environment variable, parses the request body as JSON,
validates required fields, renders a prompt, issues a single
`requests.post` to the NVIDIA chat-completion API with a 60-second
timeout, and maps the provider response (or any raised exception) to an
HTTP response.

The embedding models Python JSON values as the inductive `Json`, Python
exceptions as `PyExc`, and the handler as a pure function from the
environment value, the inbound body, and the provider's behaviour to the
HTTP response paired with the list of outbound network calls made (so
that claims about "no call" / "exactly one attempt" are statable).
-/

/-- A JSON value, as produced by Python's `json` module / Flask's
`request.get_json()`.  Numbers are modelled as integers, which suffices
for every value the claims exercise. -/
inductive Json where
  | null
  | bool (b : Bool)
  | num (n : Int)
  | str (s : String)
  | arr (xs : List Json)
  | obj (fields : List (String × Json))

/-- Python's type name of a value, used in exception messages. -/
def Json.typeName : Json → String
  | .null => "NoneType"
  | .bool _ => "bool"
  | .num _ => "int"
  | .str _ => "str"
  | .arr _ => "list"
  | .obj _ => "dict"

/-- Python truthiness (`bool(x)`), as used by `not all([...])` and by the
`if response_data and ...` test in `app.py`. -/
def truthy : Json → Bool
  | .null => false
  | .bool b => b
  | .num n => n != 0
  | .str s => !(s == "")
  | .arr xs => !xs.isEmpty
  | .obj fs => !fs.isEmpty

/-- First-match association lookup on the field list of a JSON object
(JSON objects decoded by Python have distinct keys, so first-match equals
dict lookup on all decodable inputs). -/
def lookupField : List (String × Json) → String → Option Json
  | [], _ => none
  | (k, v) :: rest, key => if k = key then some v else lookupField rest key

/-- The Python exceptions that `app.py`'s handlers can raise or catch.
`jsonDecodeError` carries the raw text of the provider response, which in
the source is available to the handler as the in-scope
`nvidia_response.text`. -/
inductive PyExc where
  | badRequest
  | attributeError (msg : String)
  | typeError (msg : String)
  | keyError (k : String)
  | indexError
  | requestException (msg : String)
  | jsonDecodeError (responseText : String)

/-- Python `str(e)` for each modelled exception, as interpolated into the
handlers' f-string error messages. -/
def PyExc.estr : PyExc → String
  | .badRequest =>
      "400 Bad Request: The browser (or proxy) sent a request that this server could not understand."
  | .attributeError m => m
  | .typeError m => m
  | .keyError k => "\x27" ++ k ++ "\x27"
  | .indexError => "list index out of range"
  | .requestException m => m
  | .jsonDecodeError _ => "Expecting value: line 1 column 1 (char 0)"

/-- Python `data.get(k)`: on a dict, look the key up returning `None`
when absent; on any other value raise `AttributeError`. -/
def pyDictGet (j : Json) (k : String) : Except PyExc Json :=
  match j with
  | .obj fs => .ok ((lookupField fs k).getD .null)
  | _ => .error (.attributeError
      ("\x27" ++ j.typeName ++ "\x27 object has no attribute \x27get\x27"))

def strStartsWith : List Char → List Char → Bool
  | [], _ => true
  | _ :: _, [] => false
  | a :: as, b :: bs => a == b && strStartsWith as bs

def hasSub (pat : List Char) : List Char → Bool
  | [] => pat.isEmpty
  | c :: rest => strStartsWith pat (c :: rest) || hasSub pat rest

/-- Python `k in j` for a string `k`: key membership on a dict, element
membership on a list (only a string element can equal `k`), substring
test on a string, `TypeError` on non-iterable values. -/
def pyIn (k : String) (j : Json) : Except PyExc Bool :=
  match j with
  | .obj fs => .ok (lookupField fs k).isSome
  | .arr xs => .ok (xs.any fun x => match x with | .str t => t == k | _ => false)
  | .str t => .ok (hasSub k.toList t.toList)
  | _ => .error (.typeError
      ("argument of type \x27" ++ j.typeName ++ "\x27 is not iterable"))

/-- Python `j[k]` for a string key `k`: dict lookup (raising `KeyError`
when absent), `TypeError` on lists, strings and non-subscriptable
values. -/
def pySubscriptStr (j : Json) (k : String) : Except PyExc Json :=
  match j with
  | .obj fs =>
    match lookupField fs k with
    | some v => .ok v
    | none => .error (.keyError k)
  | .arr _ => .error (.typeError "list indices must be integers or slices, not str")
  | .str _ => .error (.typeError "string indices must be integers")
  | _ => .error (.typeError
      ("\x27" ++ j.typeName ++ "\x27 object is not subscriptable"))

/-- Python `j[i]` for a non-negative integer index `i`: list indexing
(raising `IndexError` out of range), single-character string on strings,
`KeyError` on dicts, `TypeError` otherwise. -/
def pySubscriptNat (j : Json) (i : Nat) : Except PyExc Json :=
  match j with
  | .arr xs =>
    match xs.get? i with
    | some v => .ok v
    | none => .error .indexError
  | .str s =>
    match s.toList.get? i with
    | some c => .ok (.str (String.mk [c]))
    | none => .error .indexError
  | .obj _ => .error (.keyError (toString i))
  | _ => .error (.typeError
      ("\x27" ++ j.typeName ++ "\x27 object is not subscriptable"))

/-- Python `str(x)` as used by f-string interpolation of the extracted
fields into the prompt.  Faithful on the scalar values; the rendering of
containers is abbreviated (no theorem below depends on it, since the
claims interpolate string fields only). -/
def pyStr : Json → String
  | .null => "None"
  | .bool b => if b then "True" else "False"
  | .num n => toString n
  | .str s => s
  | .arr _ => "[...]"
  | .obj _ => "\x7b...\x7d"

/-- One message of the outbound chat-completion payload. -/
structure ChatMessage where
  role : String
  content : String

/-- The JSON payload `app.py` posts to the provider; its keys are fixed,
so it is modelled as a structure. -/
structure Payload where
  model : String
  messages : List ChatMessage
  temperature : ℚ
  top_p : ℚ
  max_tokens : ℕ
  stream : Bool

/-- A record of one outbound `requests.post` call: URL, headers, JSON
payload, and timeout in seconds. -/
structure OutboundCall where
  url : String
  headers : List (String × String)
  payload : Payload
  timeout : ℕ

/-- An HTTP response produced by a handler: status code and JSON body
(as built by `jsonify`). -/
structure HttpResp where
  status : ℕ
  body : Json

/-- The inbound POST body as seen by `request.get_json()`: either not
parseable as JSON (Flask raises `BadRequest`) or a parsed JSON value. -/
inductive ReqBody where
  | unparseable
  | parsed (data : Json)

/-- The body of the provider's HTTP response: either not parseable as
JSON (so `.json()` raises) or well formed, with its parsed value. -/
inductive ProviderBody where
  | malformed (text : String)
  | wellFormed (value : Json)

/-- The outcome of the single `requests.post` call: a transport-level
failure (connection error, timeout, ...) raising a `RequestException`,
or a delivered HTTP response with final status and body. -/
inductive ProviderResult where
  | transportError (msg : String)
  | ok (status : ℕ) (body : ProviderBody)

/-- Truthiness of the `os.getenv` result, as tested by
`if not NVIDIA_API_KEY:` (falsy when unset or set to the empty string). -/
def envTruthy : Option String → Bool
  | none => false
  | some s => !(s == "")

def NVIDIA_MODEL_NAME : String := "meta/llama3-8b-instruct"

def NVIDIA_API_URL : String := "https://integrate.api.nvidia.com/v1/chat/completions"

/-- The headers dict built by both handlers. -/
def reqHeaders (key : String) : List (String × String) :=
  [("Authorization", "Bearer " ++ key),
   ("Accept", "application/json"),
   ("Content-Type", "application/json")]

/-- The response returned by `GET /`. -/
def home : String := "AI Startup Validator & FAQ Builder Backend is running!"

/-- The validation prompt f-string of `validate_startup` (lines 45-66 of
`app.py`), with the five extracted fields interpolated via `str`. -/
def validatePrompt (startup_name description target_market business_model
    competitive_advantage : Json) : String :=
  "\n        You are an expert startup validator and business analyst. Your task is to evaluate the following startup idea comprehensively.\n\n        Startup Name: "
  ++ pyStr startup_name
  ++ "\n        Description: "
  ++ pyStr description
  ++ "\n        Target Market: "
  ++ pyStr target_market
  ++ "\n        Business Model: "
  ++ pyStr business_model
  ++ "\n        Competitive Advantage: "
  ++ pyStr competitive_advantage
  ++ "\n\n        Please provide a detailed assessment structured as follows, using Markdown for clear formatting:\n\n        **Startup Rating:** [X/10] - Provide a concise justification for this rating, highlighting key strengths and weaknesses.\n        **Sentiment Analysis:** [Overall sentiment of the idea\x27s viability, e.g., \x27Highly Positive\x27, \x27Positive\x27, \x27Neutral\x27, \x27Slightly Negative\x27, \x27Negative\x27] - Explain the reasons behind this sentiment based on the provided details, considering market trends and potential.\n        **Suggestions for Improvement:**\n        * Suggestion 1: Explain how this improves the idea, focusing on market fit, scalability, technical feasibility, or execution strategy.\n        * Suggestion 2: Another actionable suggestion with explanation.\n        * Suggestion 3: A third practical suggestion (if applicable).\n        **Relevant Ideas & References:**\n        * Idea 1 Name: Brief description of a similar, complementary, or adjacent business idea. (If relevant, include a real or hypothetical URL reference, e.g., \x27https://www.example.com/related_project\x27)\n        * Idea 2 Name: Brief description. (If relevant, include a real or hypothetical URL reference)\n        * Idea 3 Name: Brief description. (If relevant, include a real or hypothetical URL reference)\n        "

/-- The FAQ prompt f-string of `generate_faq` (lines 132-150 of
`app.py`), with the two extracted fields interpolated via `str`. -/
def faqPrompt (startup_name startup_description : Json) : String :=
  "\n        You are an expert AI assistant specializing in creating comprehensive Frequently Asked Questions (FAQ) sections for new startups.\n        Your goal is to anticipate common questions potential customers, investors, or users might have about the startup.\n\n        Startup Name: "
  ++ pyStr startup_name
  ++ "\n        Startup Description: "
  ++ pyStr startup_description
  ++ "\n\n        Generate a list of 5-8 common and insightful FAQs with concise answers.\n        Format your response clearly using Markdown, with each question as a bold heading and the answer following directly.\n\n        Example Format:\n        **Q: What is [Startup Name]?**\n        A: [Concise answer about what it does and its core value proposition.]\n\n        **Q: How does [Startup Name] work?**\n        A: [Explanation of the basic mechanics or user flow.]\n\n        --- Start Generating FAQs ---\n        "

/-- The payload dict built by `validate_startup`. -/
def validatePayload (prompt : String) : Payload :=
  { model := NVIDIA_MODEL_NAME, messages := [⟨"user", prompt⟩],
    temperature := 0.7, top_p := 0.9, max_tokens := 1024, stream := false }

/-- The payload dict built by `generate_faq`. -/
def faqPayload (prompt : String) : Payload :=
  { model := NVIDIA_MODEL_NAME, messages := [⟨"user", prompt⟩],
    temperature := 0.7, top_p := 0.9, max_tokens := 1000, stream := false }

/-- The `requests.post` call issued by `validate_startup`
(`timeout=60`). -/
def validateCall (key prompt : String) : OutboundCall :=
  ⟨NVIDIA_API_URL, reqHeaders key, validatePayload prompt, 60⟩

/-- The `requests.post` call issued by `generate_faq` (`timeout=60`). -/
def faqCall (key prompt : String) : OutboundCall :=
  ⟨NVIDIA_API_URL, reqHeaders key, faqPayload prompt, 60⟩

/-- The message of the `HTTPError` raised by
`Response.raise_for_status`, which fires exactly when
`400 <= status_code < 600`. -/
def raiseForStatusMsg (status : ℕ) (url : String) : String :=
  if status < 500 then toString status ++ " Client Error for url: " ++ url
  else toString status ++ " Server Error for url: " ++ url

/-- The three `except` clauses shared verbatim by both handlers:
`requests.exceptions.RequestException`, then `json.JSONDecodeError`
(responding with the raw response text), then the catch-all
`except Exception`. -/
def exceptDispatch (e : PyExc) : HttpResp :=
  match e with
  | .requestException m =>
      ⟨500, .obj [("error", .str ("NVIDIA API request failed: " ++ m)),
                  ("details", .str m)]⟩
  | .jsonDecodeError txt =>
      ⟨500, .obj [("error", .str "Invalid JSON response from NVIDIA API."),
                  ("raw_response", .str txt)]⟩
  | e =>
      ⟨500, .obj [("error", .str ("An unexpected error occurred: " ++ e.estr)),
                  ("details", .str e.estr)]⟩

/-- Lines 86-91 / 170-175 of `app.py`: test
`response_data and "choices" in response_data and response_data["choices"]`
and either unwrap `response_data["choices"][0]["message"]["content"]`
into a 200 success body (under `successKey`, which is `ai_response` for
validation and `faq_content` for FAQ) or answer 500 with the parsed body
under `raw_response`. -/
def choicesCond (response_data : Json) : Except PyExc Bool :=
  if truthy response_data then
    match pyIn "choices" response_data with
    | .error e => .error e
    | .ok b =>
      if b then
        match pySubscriptStr response_data "choices" with
        | .error e => .error e
        | .ok ch => .ok (truthy ch)
      else .ok false
  else .ok false

def unwrapChoices (successKey : String) (response_data : Json) :
    Except PyExc HttpResp :=
  match choicesCond response_data with
  | .error e => .error e
  | .ok true =>
    match pySubscriptStr response_data "choices" with
    | .error e => .error e
    | .ok ch =>
      match pySubscriptNat ch 0 with
      | .error e => .error e
      | .ok c0 =>
        match pySubscriptStr c0 "message" with
        | .error e => .error e
        | .ok msg =>
          match pySubscriptStr msg "content" with
          | .error e => .error e
          | .ok ai_text =>
            .ok ⟨200, .obj [("success", .bool true), (successKey, ai_text)]⟩
  | .ok false =>
    .ok ⟨500, .obj [("error", .str "No valid response from NVIDIA API."),
                    ("raw_response", response_data)]⟩

/-- The part of `validate_startup`'s `try` block after the five
`data.get` extractions: the `not all([...])` validation, the prompt and
payload construction, the single `requests.post` (recorded in the call
list), `raise_for_status`, `.json()`, and the `choices` unwrapping. -/
def validateAfterFields (key : String) (startup_name description target_market
    business_model competitive_advantage : Json) (provider : ProviderResult) :
    Except PyExc HttpResp × List OutboundCall :=
  if !(truthy startup_name && truthy description && truthy target_market &&
       truthy business_model && truthy competitive_advantage) then
    (.ok ⟨400, .obj [("error", .str "Missing one or more required startup details.")]⟩, [])
  else
    let prompt := validatePrompt startup_name description target_market
      business_model competitive_advantage
    let call := validateCall key prompt
    match provider with
    | .transportError m => (.error (.requestException m), [call])
    | .ok status pbody =>
      if 400 ≤ status ∧ status < 600 then
        (.error (.requestException (raiseForStatusMsg status NVIDIA_API_URL)), [call])
      else
        match pbody with
        | .malformed txt => (.error (.jsonDecodeError txt), [call])
        | .wellFormed response_data =>
          (unwrapChoices "ai_response" response_data, [call])

/-- The whole `try` block of `validate_startup`: `request.get_json()`
(raising `BadRequest` on an unparseable body) followed by the five
`data.get` extractions (the first raises `AttributeError` when `data` is
not a dict) and `validateAfterFields`. -/
def validateTryBody (key : String) (body : ReqBody) (provider : ProviderResult) :
    Except PyExc HttpResp × List OutboundCall :=
  match body with
  | .unparseable => (.error .badRequest, [])
  | .parsed data =>
    match pyDictGet data "startupName", pyDictGet data "description",
          pyDictGet data "targetMarket", pyDictGet data "businessModel",
          pyDictGet data "competitiveAdvantage" with
    | .ok sn, .ok d, .ok tm, .ok bm, .ok ca =>
      validateAfterFields key sn d tm bm ca provider
    | .error e, _, _, _, _ => (.error e, [])
    | _, .error e, _, _, _ => (.error e, [])
    | _, _, .error e, _, _ => (.error e, [])
    | _, _, _, .error e, _ => (.error e, [])
    | _, _, _, _, .error e => (.error e, [])

/-- The `POST /validate_startup` handler: credential check first
(500 when `NVIDIA_API_KEY` is unset or empty), then the `try` block with
its exceptions mapped by the three `except` clauses.  Returns the HTTP
response paired with the list of outbound provider calls made. -/
def validate_startup (apiKey : Option String) (body : ReqBody)
    (provider : ProviderResult) : HttpResp × List OutboundCall :=
  if !(envTruthy apiKey) then
    (⟨500, .obj [("error", .str "NVIDIA_API_KEY is not set in the .env file.")]⟩, [])
  else
    match validateTryBody (apiKey.getD "") body provider with
    | (.ok r, calls) => (r, calls)
    | (.error e, calls) => (exceptDispatch e, calls)

/-- The part of `generate_faq`'s `try` block after the two `data.get`
extractions: validation, prompt and payload construction, the single
`requests.post`, `raise_for_status`, `.json()`, and the `choices`
unwrapping. -/
def faqAfterFields (key : String) (startup_name startup_description : Json)
    (provider : ProviderResult) : Except PyExc HttpResp × List OutboundCall :=
  if !(truthy startup_name && truthy startup_description) then
    (.ok ⟨400, .obj [("error", .str "Missing startup name or description.")]⟩, [])
  else
    let prompt := faqPrompt startup_name startup_description
    let call := faqCall key prompt
    match provider with
    | .transportError m => (.error (.requestException m), [call])
    | .ok status pbody =>
      if 400 ≤ status ∧ status < 600 then
        (.error (.requestException (raiseForStatusMsg status NVIDIA_API_URL)), [call])
      else
        match pbody with
        | .malformed txt => (.error (.jsonDecodeError txt), [call])
        | .wellFormed response_data =>
          (unwrapChoices "faq_content" response_data, [call])

/-- The whole `try` block of `generate_faq`. -/
def faqTryBody (key : String) (body : ReqBody) (provider : ProviderResult) :
    Except PyExc HttpResp × List OutboundCall :=
  match body with
  | .unparseable => (.error .badRequest, [])
  | .parsed data =>
    match pyDictGet data "startupName", pyDictGet data "startupDescription" with
    | .ok sn, .ok sd => faqAfterFields key sn sd provider
    | .error e, _ => (.error e, [])
    | _, .error e => (.error e, [])

/-- The `POST /generate_faq` handler, structured exactly like
`validate_startup`. -/
def generate_faq (apiKey : Option String) (body : ReqBody)
    (provider : ProviderResult) : HttpResp × List OutboundCall :=
  if !(envTruthy apiKey) then
    (⟨500, .obj [("error", .str "NVIDIA_API_KEY is not set in the .env file.")]⟩, [])
  else
    match faqTryBody (apiKey.getD "") body provider with
    | (.ok r, calls) => (r, calls)
    | (.error e, calls) => (exceptDispatch e, calls)

/-- A `/validate_startup` request body whose five required fields are the
given strings. -/
def vBody (n d t b c : String) : ReqBody :=
  .parsed (.obj [("startupName", .str n), ("description", .str d),
    ("targetMarket", .str t), ("businessModel", .str b),
    ("competitiveAdvantage", .str c)])

/-- A `/generate_faq` request body with the two required fields. -/
def fBody (n d : String) : ReqBody :=
  .parsed (.obj [("startupName", .str n), ("startupDescription", .str d)])

/-- A provider body whose first choice carries `t` as its message
content. -/
def choicesBody (t : Json) : Json :=
  .obj [("choices", .arr [.obj [("message", .obj [("content", t)])]])]

/-- Does a JSON object body carry the given key?  Used to state that an
error response does or does not include a `raw_response` field. -/
def hasField (j : Json) (k : String) : Bool :=
  match j with
  | .obj fs => (lookupField fs k).isSome
  | _ => false

/-- Is the JSON value an object (a Python dict)? -/
def Json.isObj : Json → Bool
  | .obj _ => true
  | _ => false

/-- A successful field lookup forces the field list to be non-empty. -/
theorem lookupField_isEmpty_false {fs : List (String × Json)} {k : String}
    {v : Json} (h : lookupField fs k = some v) : fs.isEmpty = false := by
  cases fs with
  | nil => simp [lookupField] at h
  | cons a rest => rfl

/-- The names of the required fields of `/validate_startup`. -/
def vRequired : List String :=
  ["startupName", "description", "targetMarket", "businessModel",
   "competitiveAdvantage"]

/-- The names of the required fields of `/generate_faq`. -/
def fRequired : List String := ["startupName", "startupDescription"]

/-- Claim C1: for every POST to `/validate_startup` or `/generate_faq`
whose body parses to a JSON object in which some required field is absent
(or explicit `null`) or the empty string, the handler returns status 400
with exactly the fixed message of that endpoint, and no provider call is
made. -/
theorem required_fields_missing_400 (apiKey : Option String)
    (provider : ProviderResult) (fsV fsF : List (String × Json))
    (hk : envTruthy apiKey = true)
    (hV : ∃ k ∈ vRequired, (lookupField fsV k).getD .null = .null ∨
        (lookupField fsV k).getD .null = .str "")
    (hF : ∃ k ∈ fRequired, (lookupField fsF k).getD .null = .null ∨
        (lookupField fsF k).getD .null = .str "") :
    validate_startup apiKey (.parsed (.obj fsV)) provider =
      (⟨400, .obj [("error", .str "Missing one or more required startup details.")]⟩, []) ∧
    generate_faq apiKey (.parsed (.obj fsF)) provider =
      (⟨400, .obj [("error", .str "Missing startup name or description.")]⟩, []) := by
  have hVfalse : (truthy ((lookupField fsV "startupName").getD .null) &&
      truthy ((lookupField fsV "description").getD .null) &&
      truthy ((lookupField fsV "targetMarket").getD .null) &&
      truthy ((lookupField fsV "businessModel").getD .null) &&
      truthy ((lookupField fsV "competitiveAdvantage").getD .null)) = false := by
    obtain ⟨k, hmem, hval⟩ := hV
    have hfalse : truthy ((lookupField fsV k).getD .null) = false := by
      rcases hval with h | h <;> rw [h] <;> rfl
    fin_cases hmem <;> simp [hfalse]
  have hFfalse : (truthy ((lookupField fsF "startupName").getD .null) &&
      truthy ((lookupField fsF "startupDescription").getD .null)) = false := by
    obtain ⟨k, hmem, hval⟩ := hF
    have hfalse : truthy ((lookupField fsF k).getD .null) = false := by
      rcases hval with h | h <;> rw [h] <;> rfl
    fin_cases hmem <;> simp [hfalse]
  constructor
  · simp [validate_startup, hk, validateTryBody, pyDictGet, validateAfterFields, hVfalse]
  · simp [generate_faq, hk, faqTryBody, pyDictGet, faqAfterFields, hFfalse]

/-- Witness for C1: a concrete key, a validation body missing four of the
five fields, and an FAQ body whose `startupDescription` is the empty
string, each answered 400 with the endpoint's fixed message and an empty
call list. -/
theorem required_fields_missing_400_check :
    validate_startup (some "k")
        (.parsed (.obj [("startupName", Json.str "Acme")])) (.transportError "x") =
      (⟨400, .obj [("error", .str "Missing one or more required startup details.")]⟩, []) ∧
    generate_faq (some "k")
        (.parsed (.obj [("startupName", Json.str "Acme"),
                        ("startupDescription", Json.str "")])) (.transportError "x") =
      (⟨400, .obj [("error", .str "Missing startup name or description.")]⟩, []) :=
  required_fields_missing_400 (some "k") (.transportError "x") _ _ (by decide)
    ⟨"description", by decide, Or.inl rfl⟩
    ⟨"startupDescription", by decide, Or.inr rfl⟩

/-- Claim C5: with the credential absent, both handlers answer 500 and
the provider is never called, whatever the request body and whatever the
provider would have answered. -/
theorem missing_credential_500 (body : ReqBody) (provider : ProviderResult) :
    ((validate_startup none body provider).fst.status = 500 ∧
     (validate_startup none body provider).snd = []) ∧
    ((generate_faq none body provider).fst.status = 500 ∧
     (generate_faq none body provider).snd = []) :=
  ⟨⟨rfl, rfl⟩, ⟨rfl, rfl⟩⟩

/-- Claim C9: the credential check precedes parsing and validation: with
the credential absent each handler returns exactly the fixed
configuration-error response for every body, including invalid ones, so
the 400 validation response is never produced. -/
theorem credential_check_precedes_validation (body : ReqBody)
    (provider : ProviderResult) :
    validate_startup none body provider =
      (⟨500, .obj [("error", .str "NVIDIA_API_KEY is not set in the .env file.")]⟩, []) ∧
    generate_faq none body provider =
      (⟨500, .obj [("error", .str "NVIDIA_API_KEY is not set in the .env file.")]⟩, []) ∧
    (validate_startup none body provider).fst.status ≠ 400 ∧
    (generate_faq none body provider).fst.status ≠ 400 :=
  ⟨rfl, rfl, by show (500 : ℕ) ≠ 400; decide, by show (500 : ℕ) ≠ 400; decide⟩

/-- Claim C2: for every request that passes validation, a 2xx provider
response whose parsed JSON body carries a non-empty `choices` list makes
the handler answer 200 with `success: true` and the `content` of the
`message` of the first choice under `ai_response` (validation) /
`faq_content` (FAQ), exactly. -/
theorem provider_success_first_choice (apiKey : Option String)
    (n d t b c fn fd : String) (status : ℕ)
    (rfs c0fs msgfs : List (String × Json)) (rest : List Json) (content : Json)
    (hk : envTruthy apiKey = true)
    (hn : n ≠ "") (hd : d ≠ "") (ht : t ≠ "") (hb : b ≠ "") (hc : c ≠ "")
    (hfn : fn ≠ "") (hfd : fd ≠ "")
    (hst : 200 ≤ status ∧ status < 300)
    (hch : lookupField rfs "choices" = some (.arr (Json.obj c0fs :: rest)))
    (hmsg : lookupField c0fs "message" = some (.obj msgfs))
    (hcontent : lookupField msgfs "content" = some content) :
    (validate_startup apiKey (vBody n d t b c)
        (.ok status (.wellFormed (.obj rfs)))).fst =
      ⟨200, .obj [("success", .bool true), ("ai_response", content)]⟩ ∧
    (generate_faq apiKey (fBody fn fd)
        (.ok status (.wellFormed (.obj rfs)))).fst =
      ⟨200, .obj [("success", .bool true), ("faq_content", content)]⟩ := by
  have hne := lookupField_isEmpty_false hch
  have hnot : ¬ (400 ≤ status ∧ status < 600) := by omega
  constructor
  · simp [validate_startup, hk, validateTryBody, pyDictGet, vBody, lookupField,
      validateAfterFields, truthy, hn, hd, ht, hb, hc, hnot, unwrapChoices,
      choicesCond, pyIn, pySubscriptStr, pySubscriptNat, hch, hne, hmsg,
      hcontent, List.get?]
  · simp [generate_faq, hk, faqTryBody, pyDictGet, fBody, lookupField,
      faqAfterFields, truthy, hfn, hfd, hnot, unwrapChoices,
      choicesCond, pyIn, pySubscriptStr, pySubscriptNat, hch, hne, hmsg,
      hcontent, List.get?]

/-- Witness for C2: the spec's own example scenario, with a concrete key,
concrete fields, status 200 and one choice carrying the text. -/
theorem provider_success_first_choice_check :
    (validate_startup (some "k") (vBody "a" "b" "c" "d" "e")
        (.ok 200 (.wellFormed (.obj [("choices",
          .arr [.obj [("message", .obj [("content", Json.str "T")])]])])))).fst =
      ⟨200, .obj [("success", .bool true), ("ai_response", Json.str "T")]⟩ ∧
    (generate_faq (some "k") (fBody "Acme" "Widgets for robots")
        (.ok 200 (.wellFormed (.obj [("choices",
          .arr [.obj [("message", .obj [("content", Json.str "T")])]])])))).fst =
      ⟨200, .obj [("success", .bool true), ("faq_content", Json.str "T")]⟩ :=
  provider_success_first_choice (some "k") "a" "b" "c" "d" "e" "Acme"
    "Widgets for robots" 200 _ _ _ [] (Json.str "T") (by decide)
    (by decide) (by decide) (by decide) (by decide) (by decide)
    (by decide) (by decide) (by omega) rfl rfl rfl

/-- Claim C3: for every request that passes validation, a 2xx provider
response whose body is not parseable as JSON makes the handler answer 500
through the `json.JSONDecodeError` branch, carrying the raw response text
under `raw_response` — a body distinct from the transport-failure one. -/
theorem malformed_provider_body_500_raw (apiKey : Option String)
    (n d t b c fn fd : String) (status : ℕ) (txt : String)
    (hk : envTruthy apiKey = true)
    (hn : n ≠ "") (hd : d ≠ "") (ht : t ≠ "") (hb : b ≠ "") (hc : c ≠ "")
    (hfn : fn ≠ "") (hfd : fd ≠ "")
    (hst : 200 ≤ status ∧ status < 300) :
    (validate_startup apiKey (vBody n d t b c)
        (.ok status (.malformed txt))).fst =
      ⟨500, .obj [("error", .str "Invalid JSON response from NVIDIA API."),
                  ("raw_response", .str txt)]⟩ ∧
    (generate_faq apiKey (fBody fn fd) (.ok status (.malformed txt))).fst =
      ⟨500, .obj [("error", .str "Invalid JSON response from NVIDIA API."),
                  ("raw_response", .str txt)]⟩ := by
  have hnot : ¬ (400 ≤ status ∧ status < 600) := by omega
  constructor
  · simp [validate_startup, hk, validateTryBody, pyDictGet, vBody, lookupField,
      validateAfterFields, truthy, hn, hd, ht, hb, hc, hnot, exceptDispatch]
  · simp [generate_faq, hk, faqTryBody, pyDictGet, fBody, lookupField,
      faqAfterFields, truthy, hfn, hfd, hnot, exceptDispatch]

/-- Witness for C3: a concrete validated request whose provider answers
200 with an HTML error page instead of JSON. -/
theorem malformed_provider_body_500_raw_check :
    (validate_startup (some "k") (vBody "a" "b" "c" "d" "e")
        (.ok 200 (.malformed "<html>oops</html>"))).fst =
      ⟨500, .obj [("error", .str "Invalid JSON response from NVIDIA API."),
                  ("raw_response", .str "<html>oops</html>")]⟩ ∧
    (generate_faq (some "k") (fBody "Acme" "Widgets")
        (.ok 200 (.malformed "<html>oops</html>"))).fst =
      ⟨500, .obj [("error", .str "Invalid JSON response from NVIDIA API."),
                  ("raw_response", .str "<html>oops</html>")]⟩ :=
  malformed_provider_body_500_raw (some "k") "a" "b" "c" "d" "e" "Acme"
    "Widgets" 200 "<html>oops</html>" (by decide) (by decide) (by decide)
    (by decide) (by decide) (by decide) (by decide) (by decide) (by omega)

/-- The line-86 condition evaluates to `false` without raising whenever
the parsed provider body is falsy, or is an object whose `choices` entry
is absent or falsy. -/
theorem choicesCond_eq_false (rd : Json)
    (h : truthy rd = false ∨ ∃ rfs, rd = .obj rfs ∧
        ∀ v, lookupField rfs "choices" = some v → truthy v = false) :
    choicesCond rd = .ok false := by
  rcases h with h | ⟨rfs, rfl, hv⟩
  · simp [choicesCond, h]
  · cases he : rfs.isEmpty with
    | true => simp [choicesCond, truthy, he]
    | false =>
      have htr : truthy (Json.obj rfs) = true := by simp [truthy, he]
      cases hc : lookupField rfs "choices" with
      | none => simp [choicesCond, htr, pyIn, hc]
      | some v => simp [choicesCond, htr, pyIn, hc, pySubscriptStr, hv v hc]

/-- Counterexample to C4 as stated: the provider returns 2xx with the
JSON body `5`, which parses as JSON and has no `choices`, yet the
handler answers the catch-all 500 (the membership test
`"choices" in response_data` raises `TypeError` on an `int`) whose body
has no `raw_response` field, contradicting the claimed response shape. -/
theorem truthy_scalar_body_breaks_raw_response :
    (validate_startup (some "k") (vBody "a" "b" "c" "d" "e")
        (.ok 200 (.wellFormed (.num 5)))).fst =
      ⟨500, .obj [("error", .str "An unexpected error occurred: argument of type \x27int\x27 is not iterable"),
                  ("details", .str "argument of type \x27int\x27 is not iterable")]⟩ ∧
    hasField (validate_startup (some "k") (vBody "a" "b" "c" "d" "e")
        (.ok 200 (.wellFormed (.num 5)))).fst.body "raw_response" = false :=
  ⟨rfl, rfl⟩

/-- Claim C4 (amended): for every request that passes validation, if the
provider returns 2xx with a parsed JSON body that is falsy (null, empty
object or array, empty string, zero, false) or is a JSON object whose
`choices` entry is absent or falsy, the handler returns 500 with an
`error` field and a `raw_response` field equal to the parsed body. -/
theorem empty_or_missing_choices_500_raw (apiKey : Option String)
    (n d t b c fn fd : String) (status : ℕ) (rd : Json)
    (hk : envTruthy apiKey = true)
    (hn : n ≠ "") (hd : d ≠ "") (ht : t ≠ "") (hb : b ≠ "") (hc : c ≠ "")
    (hfn : fn ≠ "") (hfd : fd ≠ "")
    (hst : 200 ≤ status ∧ status < 300)
    (hrd : truthy rd = false ∨ ∃ rfs, rd = .obj rfs ∧
        ∀ v, lookupField rfs "choices" = some v → truthy v = false) :
    (validate_startup apiKey (vBody n d t b c)
        (.ok status (.wellFormed rd))).fst =
      ⟨500, .obj [("error", .str "No valid response from NVIDIA API."),
                  ("raw_response", rd)]⟩ ∧
    (generate_faq apiKey (fBody fn fd) (.ok status (.wellFormed rd))).fst =
      ⟨500, .obj [("error", .str "No valid response from NVIDIA API."),
                  ("raw_response", rd)]⟩ := by
  have hcc := choicesCond_eq_false rd hrd
  have hnot : ¬ (400 ≤ status ∧ status < 600) := by omega
  constructor
  · simp [validate_startup, hk, validateTryBody, pyDictGet, vBody, lookupField,
      validateAfterFields, truthy, hn, hd, ht, hb, hc, hnot, unwrapChoices, hcc]
  · simp [generate_faq, hk, faqTryBody, pyDictGet, fBody, lookupField,
      faqAfterFields, truthy, hfn, hfd, hnot, unwrapChoices, hcc]

/-- Witness for the amended C4: a provider body that is an object without
a `choices` key; both endpoints attach it under `raw_response`. -/
theorem empty_or_missing_choices_500_raw_check :
    (validate_startup (some "k") (vBody "a" "b" "c" "d" "e")
        (.ok 200 (.wellFormed (.obj [("foo", Json.str "x")])))).fst =
      ⟨500, .obj [("error", .str "No valid response from NVIDIA API."),
                  ("raw_response", .obj [("foo", Json.str "x")])]⟩ ∧
    (generate_faq (some "k") (fBody "Acme" "Widgets")
        (.ok 200 (.wellFormed (.obj [("foo", Json.str "x")])))).fst =
      ⟨500, .obj [("error", .str "No valid response from NVIDIA API."),
                  ("raw_response", .obj [("foo", Json.str "x")])]⟩ :=
  empty_or_missing_choices_500_raw (some "k") "a" "b" "c" "d" "e" "Acme"
    "Widgets" 200 (.obj [("foo", Json.str "x")]) (by decide) (by decide)
    (by decide) (by decide) (by decide) (by decide) (by decide) (by decide)
    (by omega)
    (Or.inr ⟨[("foo", Json.str "x")], rfl, by intro v hv; simp [lookupField] at hv⟩)

/-- Counterexample to C6 as stated: a non-2xx provider status (300, a
status `raise_for_status` does not raise on) with a well-formed body
carrying a choice is answered 200, not 500. -/
theorem status_300_passes_through_200 :
    (validate_startup (some "k") (vBody "a" "b" "c" "d" "e")
        (.ok 300 (.wellFormed (choicesBody (.str "T"))))).fst.status = 200 := rfl

/-- Claim C6 (amended): for every request that passes validation, a
transport error, or a delivered status in 400..599 (the exact range
`raise_for_status` raises on), makes the handler answer 500 with the
underlying error description attached under `error` and `details`, and
exactly one network attempt is made; statuses outside 2xx but below 400
(or at 600 and above) are instead passed to normal response handling. -/
theorem transport_or_http_error_500_single_attempt (apiKey : Option String)
    (n d t b c fn fd : String)
    (hk : envTruthy apiKey = true)
    (hn : n ≠ "") (hd : d ≠ "") (ht : t ≠ "") (hb : b ≠ "") (hc : c ≠ "")
    (hfn : fn ≠ "") (hfd : fd ≠ "") :
    (∀ m : String,
      (validate_startup apiKey (vBody n d t b c) (.transportError m)).fst =
        ⟨500, .obj [("error", .str ("NVIDIA API request failed: " ++ m)),
                    ("details", .str m)]⟩ ∧
      (validate_startup apiKey (vBody n d t b c) (.transportError m)).snd.length = 1 ∧
      (generate_faq apiKey (fBody fn fd) (.transportError m)).fst =
        ⟨500, .obj [("error", .str ("NVIDIA API request failed: " ++ m)),
                    ("details", .str m)]⟩ ∧
      (generate_faq apiKey (fBody fn fd) (.transportError m)).snd.length = 1) ∧
    (∀ (status : ℕ) (pbody : ProviderBody), 400 ≤ status → status < 600 →
      (validate_startup apiKey (vBody n d t b c) (.ok status pbody)).fst =
        ⟨500, .obj [("error", .str ("NVIDIA API request failed: " ++
                        raiseForStatusMsg status NVIDIA_API_URL)),
                    ("details", .str (raiseForStatusMsg status NVIDIA_API_URL))]⟩ ∧
      (validate_startup apiKey (vBody n d t b c) (.ok status pbody)).snd.length = 1 ∧
      (generate_faq apiKey (fBody fn fd) (.ok status pbody)).fst =
        ⟨500, .obj [("error", .str ("NVIDIA API request failed: " ++
                        raiseForStatusMsg status NVIDIA_API_URL)),
                    ("details", .str (raiseForStatusMsg status NVIDIA_API_URL))]⟩ ∧
      (generate_faq apiKey (fBody fn fd) (.ok status pbody)).snd.length = 1) := by
  constructor
  · intro m
    refine ⟨?_, ?_, ?_, ?_⟩ <;>
      simp [validate_startup, generate_faq, hk, validateTryBody, faqTryBody,
        pyDictGet, vBody, fBody, lookupField, validateAfterFields, faqAfterFields,
        truthy, hn, hd, ht, hb, hc, hfn, hfd, exceptDispatch]
  · intro status pbody h1 h2
    have hcond : 400 ≤ status ∧ status < 600 := ⟨h1, h2⟩
    refine ⟨?_, ?_, ?_, ?_⟩ <;>
      simp [validate_startup, generate_faq, hk, validateTryBody, faqTryBody,
        pyDictGet, vBody, fBody, lookupField, validateAfterFields, faqAfterFields,
        truthy, hn, hd, ht, hb, hc, hfn, hfd, exceptDispatch, hcond]

/-- Witness for the amended C6: a concrete connection failure and a
concrete 404, each answered 500 with the description attached and a
single outbound attempt. -/
theorem transport_or_http_error_500_single_attempt_check :
    ((validate_startup (some "k") (vBody "a" "b" "c" "d" "e")
        (.transportError "Connection refused")).fst =
      ⟨500, .obj [("error", .str "NVIDIA API request failed: Connection refused"),
                  ("details", .str "Connection refused")]⟩ ∧
     (validate_startup (some "k") (vBody "a" "b" "c" "d" "e")
        (.transportError "Connection refused")).snd.length = 1 ∧
     (generate_faq (some "k") (fBody "Acme" "Widgets")
        (.transportError "Connection refused")).fst =
      ⟨500, .obj [("error", .str "NVIDIA API request failed: Connection refused"),
                  ("details", .str "Connection refused")]⟩ ∧
     (generate_faq (some "k") (fBody "Acme" "Widgets")
        (.transportError "Connection refused")).snd.length = 1) ∧
    ((validate_startup (some "k") (vBody "a" "b" "c" "d" "e")
        (.ok 404 (.malformed "Not Found"))).fst =
      ⟨500, .obj [("error", .str ("NVIDIA API request failed: " ++
                      raiseForStatusMsg 404 NVIDIA_API_URL)),
                  ("details", .str (raiseForStatusMsg 404 NVIDIA_API_URL))]⟩ ∧
     (validate_startup (some "k") (vBody "a" "b" "c" "d" "e")
        (.ok 404 (.malformed "Not Found"))).snd.length = 1 ∧
     (generate_faq (some "k") (fBody "Acme" "Widgets")
        (.ok 404 (.malformed "Not Found"))).fst =
      ⟨500, .obj [("error", .str ("NVIDIA API request failed: " ++
                      raiseForStatusMsg 404 NVIDIA_API_URL)),
                  ("details", .str (raiseForStatusMsg 404 NVIDIA_API_URL))]⟩ ∧
     (generate_faq (some "k") (fBody "Acme" "Widgets")
        (.ok 404 (.malformed "Not Found"))).snd.length = 1) :=
  ⟨(transport_or_http_error_500_single_attempt (some "k") "a" "b" "c" "d" "e"
      "Acme" "Widgets" (by decide) (by decide) (by decide) (by decide)
      (by decide) (by decide) (by decide) (by decide)).1 "Connection refused",
   (transport_or_http_error_500_single_attempt (some "k") "a" "b" "c" "d" "e"
      "Acme" "Widgets" (by decide) (by decide) (by decide) (by decide)
      (by decide) (by decide) (by decide) (by decide)).2 404
      (.malformed "Not Found") (by omega) (by omega)⟩

/-- Once validation passes, `validate_startup`'s try block issues exactly
the one recorded call, whatever the provider then does. -/
theorem validateAfterFields_calls (key : String) (sn d tm bm ca : Json)
    (provider : ProviderResult)
    (h : (truthy sn && truthy d && truthy tm && truthy bm && truthy ca) = true) :
    (validateAfterFields key sn d tm bm ca provider).snd =
      [validateCall key (validatePrompt sn d tm bm ca)] := by
  cases provider with
  | transportError m => simp [validateAfterFields, h]
  | ok status pbody =>
    by_cases hcond : 400 ≤ status ∧ status < 600
    · simp [validateAfterFields, h, hcond]
    · cases pbody <;> simp [validateAfterFields, h, hcond]

/-- Once validation passes, `generate_faq`'s try block issues exactly the
one recorded call, whatever the provider then does. -/
theorem faqAfterFields_calls (key : String) (sn sd : Json)
    (provider : ProviderResult)
    (h : (truthy sn && truthy sd) = true) :
    (faqAfterFields key sn sd provider).snd =
      [faqCall key (faqPrompt sn sd)] := by
  cases provider with
  | transportError m => simp [faqAfterFields, h]
  | ok status pbody =>
    by_cases hcond : 400 ≤ status ∧ status < 600
    · simp [faqAfterFields, h, hcond]
    · cases pbody <;> simp [faqAfterFields, h, hcond]

/-- The exception dispatch preserves the list of calls already made. -/
theorem validate_startup_snd (apiKey : Option String) (body : ReqBody)
    (provider : ProviderResult) (hk : envTruthy apiKey = true) :
    (validate_startup apiKey body provider).snd =
      (validateTryBody (apiKey.getD "") body provider).snd := by
  cases htb : validateTryBody (apiKey.getD "") body provider with
  | mk er calls => cases er <;> simp [validate_startup, hk, htb]

/-- The exception dispatch preserves the list of calls already made. -/
theorem generate_faq_snd (apiKey : Option String) (body : ReqBody)
    (provider : ProviderResult) (hk : envTruthy apiKey = true) :
    (generate_faq apiKey body provider).snd =
      (faqTryBody (apiKey.getD "") body provider).snd := by
  cases htb : faqTryBody (apiKey.getD "") body provider with
  | mk er calls => cases er <;> simp [generate_faq, hk, htb]

/-- A canonical validation body reduces the try block to the
post-extraction stage. -/
theorem validateTryBody_vBody (key n d t b c : String)
    (provider : ProviderResult) :
    validateTryBody key (vBody n d t b c) provider =
      validateAfterFields key (.str n) (.str d) (.str t) (.str b) (.str c)
        provider := by
  simp [validateTryBody, vBody, pyDictGet, lookupField]

/-- A canonical FAQ body reduces the try block to the post-extraction
stage. -/
theorem faqTryBody_fBody (key n d : String) (provider : ProviderResult) :
    faqTryBody key (fBody n d) provider =
      faqAfterFields key (.str n) (.str d) provider := by
  simp [faqTryBody, fBody, pyDictGet, lookupField]

/-- Claim C7: for every validated request, the single outbound call posts
to the provider URL with bearer-token headers and a payload with exactly
the fixed model, one user-role message containing the rendered prompt,
temperature 0.7, top_p 0.9, max_tokens 1024 (validation) / 1000 (FAQ)
and stream false, under a 60-second timeout. -/
theorem outbound_call_fixed_parameters (apiKey : Option String)
    (n d t b c fn fd : String) (provider : ProviderResult)
    (hk : envTruthy apiKey = true)
    (hn : n ≠ "") (hd : d ≠ "") (ht : t ≠ "") (hb : b ≠ "") (hc : c ≠ "")
    (hfn : fn ≠ "") (hfd : fd ≠ "") :
    (validate_startup apiKey (vBody n d t b c) provider).snd =
      [⟨NVIDIA_API_URL, reqHeaders (apiKey.getD ""),
        ⟨NVIDIA_MODEL_NAME,
         [⟨"user", validatePrompt (.str n) (.str d) (.str t) (.str b) (.str c)⟩],
         0.7, 0.9, 1024, false⟩, 60⟩] ∧
    (generate_faq apiKey (fBody fn fd) provider).snd =
      [⟨NVIDIA_API_URL, reqHeaders (apiKey.getD ""),
        ⟨NVIDIA_MODEL_NAME, [⟨"user", faqPrompt (.str fn) (.str fd)⟩],
         0.7, 0.9, 1000, false⟩, 60⟩] := by
  have h1 : (truthy (.str n) && truthy (.str d) && truthy (.str t) &&
      truthy (.str b) && truthy (.str c)) = true := by
    simp [truthy, hn, hd, ht, hb, hc]
  have h2 : (truthy (.str fn) && truthy (.str fd)) = true := by
    simp [truthy, hfn, hfd]
  constructor
  · rw [validate_startup_snd apiKey _ _ hk, validateTryBody_vBody,
      validateAfterFields_calls _ _ _ _ _ _ _ h1]
    rfl
  · rw [generate_faq_snd apiKey _ _ hk, faqTryBody_fBody,
      faqAfterFields_calls _ _ _ _ h2]
    rfl

/-- Witness for C7: a concrete validated request for each endpoint; the
recorded call lists are filled in explicitly. -/
theorem outbound_call_fixed_parameters_check :
    (validate_startup (some "k") (vBody "a" "b" "c" "d" "e")
        (.transportError "x")).snd =
      [⟨NVIDIA_API_URL, reqHeaders "k",
        ⟨NVIDIA_MODEL_NAME,
         [⟨"user", validatePrompt (.str "a") (.str "b") (.str "c") (.str "d")
            (.str "e")⟩],
         0.7, 0.9, 1024, false⟩, 60⟩] ∧
    (generate_faq (some "k") (fBody "Acme" "Widgets")
        (.transportError "x")).snd =
      [⟨NVIDIA_API_URL, reqHeaders "k",
        ⟨NVIDIA_MODEL_NAME, [⟨"user", faqPrompt (.str "Acme") (.str "Widgets")⟩],
         0.7, 0.9, 1000, false⟩, 60⟩] :=
  outbound_call_fixed_parameters (some "k") "a" "b" "c" "d" "e" "Acme"
    "Widgets" (.transportError "x") (by decide) (by decide) (by decide)
    (by decide) (by decide) (by decide) (by decide) (by decide)

/-- An infix of a list stays an infix after prepending a segment. -/
theorem infixOfTail {α : Type} (l : List α) {l₁ l₂ : List α}
    (h : l₁ <:+: l₂) : l₁ <:+: l ++ l₂ := by
  obtain ⟨s, t, rfl⟩ := h
  exact ⟨l ++ s, t, by simp⟩

/-- A list is an infix of itself followed by anything. -/
theorem infixOfHere {α : Type} (l₁ r : List α) : l₁ <:+: l₁ ++ r :=
  ⟨[], r, by simp⟩

set_option maxRecDepth 4096 in
/-- Claim C8: for required fields that are strings of arbitrary content
(including template-delimiter-like substrings), each rendered prompt
contains every input value as a verbatim, unmodified substring (its
character list is an infix of the prompt's character list); no escaping
or transformation is applied. -/
theorem prompt_contains_fields_verbatim (n d t b c fn fd : String) :
    (n.data <:+: (validatePrompt (.str n) (.str d) (.str t) (.str b) (.str c)).data ∧
     d.data <:+: (validatePrompt (.str n) (.str d) (.str t) (.str b) (.str c)).data ∧
     t.data <:+: (validatePrompt (.str n) (.str d) (.str t) (.str b) (.str c)).data ∧
     b.data <:+: (validatePrompt (.str n) (.str d) (.str t) (.str b) (.str c)).data ∧
     c.data <:+: (validatePrompt (.str n) (.str d) (.str t) (.str b) (.str c)).data) ∧
    (fn.data <:+: (faqPrompt (.str fn) (.str fd)).data ∧
     fd.data <:+: (faqPrompt (.str fn) (.str fd)).data) := by
  refine ⟨⟨?_, ?_, ?_, ?_, ?_⟩, ?_, ?_⟩ <;>
  · simp only [validatePrompt, faqPrompt, pyStr, String.data_append,
      List.append_assoc]
    repeat first
      | exact infixOfHere _ _
      | apply infixOfTail

/-- Claim C10: a POST body that is unparseable, or parses to something
other than a JSON object (such as `null`), makes both handlers answer
the catch-all 500 — `BadRequest` from `request.get_json()` or
`AttributeError` from the first `data.get` lands in `except Exception` —
never the 400 validation response, and no provider call is made. -/
theorem non_object_body_catchall_500 (apiKey : Option String)
    (provider : ProviderResult) (hk : envTruthy apiKey = true) :
    (validate_startup apiKey .unparseable provider =
      (⟨500, .obj [("error", .str ("An unexpected error occurred: " ++
                      PyExc.estr .badRequest)),
                   ("details", .str (PyExc.estr .badRequest))]⟩, []) ∧
     generate_faq apiKey .unparseable provider =
      (⟨500, .obj [("error", .str ("An unexpected error occurred: " ++
                      PyExc.estr .badRequest)),
                   ("details", .str (PyExc.estr .badRequest))]⟩, [])) ∧
    ∀ data : Json, data.isObj = false →
      validate_startup apiKey (.parsed data) provider =
        (⟨500, .obj [("error", .str ("An unexpected error occurred: \x27" ++
                        data.typeName ++ "\x27 object has no attribute \x27get\x27")),
                     ("details", .str ("\x27" ++ data.typeName ++
                        "\x27 object has no attribute \x27get\x27"))]⟩, []) ∧
      generate_faq apiKey (.parsed data) provider =
        (⟨500, .obj [("error", .str ("An unexpected error occurred: \x27" ++
                        data.typeName ++ "\x27 object has no attribute \x27get\x27")),
                     ("details", .str ("\x27" ++ data.typeName ++
                        "\x27 object has no attribute \x27get\x27"))]⟩, []) := by
  constructor
  · constructor <;>
      simp [validate_startup, generate_faq, hk, validateTryBody, faqTryBody,
        exceptDispatch, PyExc.estr]
  · intro data hobj
    cases data
    case obj fs => simp [Json.isObj] at hobj
    all_goals constructor <;>
      simp [validate_startup, generate_faq, hk, validateTryBody, faqTryBody,
        pyDictGet, exceptDispatch, PyExc.estr, Json.typeName]

/-- Witness for C10: an unparseable body and a parsed `null` body at a
concrete key, each answered by the catch-all 500 with no call made. -/
theorem non_object_body_catchall_500_check :
    validate_startup (some "k") .unparseable (.transportError "x") =
      (⟨500, .obj [("error", .str ("An unexpected error occurred: " ++
                      PyExc.estr .badRequest)),
                   ("details", .str (PyExc.estr .badRequest))]⟩, []) ∧
    generate_faq (some "k") (.parsed .null) (.transportError "x") =
      (⟨500, .obj [("error", .str ("An unexpected error occurred: \x27" ++
                      Json.typeName .null ++ "\x27 object has no attribute \x27get\x27")),
                   ("details", .str ("\x27" ++ Json.typeName .null ++
                      "\x27 object has no attribute \x27get\x27"))]⟩, []) :=
  ⟨(non_object_body_catchall_500 (some "k") (.transportError "x")
      (by decide)).1.1,
   ((non_object_body_catchall_500 (some "k") (.transportError "x")
      (by decide)).2 .null (by decide)).2⟩
